import Mathlib

/-!
Verification of the Ollama/OpenAI proxy (`main.go`): a shallow embedding of
the request/response schema translation performed by `handleChatCompletions`,
`convertMessagesToPrompt`, `sendToOllama`, `sendError` and `corsMiddleware`.

Modelling conventions:
* Go strings are Lean `String`s; Go's `len` on a string counts UTF-8 bytes,
  which is `String.utf8ByteSize`.
* Go `float64` is modelled as `ℚ` (JSON carries only finite decimal numbers,
  and the code only compares against zero and copies the value).
* Go JSON decoding fills absent fields with zero values, so the decoded
  `OpenAIChatRequest` carries `temperature = 0`, `maxTokens = 0`,
  `stream = false` when those fields are absent.  Decoding itself is an
  oracle: the handler receives the decode result (`Except String _`).
* The backend HTTP call is an oracle `OllamaRequest → HttpResult`; the JSON
  decoding of a 200 backend body is a second oracle
  `String → Except String OllamaResponse`.
* Response headers are not modelled; status code and body are.
-/

/-- One chat message, `{role, content}` (main.go `ChatMessage`). -/
structure ChatMessage where
  role : String
  content : String
deriving DecidableEq, Repr

/-- The front-schema request (main.go `OpenAIChatRequest`).  Absent JSON
fields decode to Go zero values: `temperature = 0`, `maxTokens = 0`,
`stream = false`. -/
structure OpenAIChatRequest where
  model : String
  messages : List ChatMessage
  temperature : ℚ
  maxTokens : ℤ
  stream : Bool
deriving DecidableEq, Repr

/-- The `options` sub-struct of the backend request.  In Go these fields are
marked `omitempty`; a field left at its zero value is absent from the wire,
which we model as `none`. -/
structure OllamaOptions where
  temperature : Option ℚ
  numPredict : Option ℤ
deriving DecidableEq, Repr

/-- The back-schema request (main.go `OllamaRequest`). -/
structure OllamaRequest where
  model : String
  prompt : String
  stream : Bool
  options : OllamaOptions
deriving DecidableEq, Repr

/-- The back-schema response (main.go `OllamaResponse`). -/
structure OllamaResponse where
  model : String
  response : String
  done : Bool
deriving DecidableEq, Repr

/-- Usage block of the front response (main.go `Usage`). -/
structure Usage where
  promptTokens : ℕ
  completionTokens : ℕ
  totalTokens : ℕ
deriving DecidableEq, Repr

/-- One choice of the front response (main.go `Choice`). -/
structure Choice where
  index : ℕ
  message : ChatMessage
  finishReason : String
deriving DecidableEq, Repr

/-- The front-schema success response (main.go `OpenAIChatResponse`). -/
structure OpenAIChatResponse where
  id : String
  object : String
  created : ℤ
  model : String
  choices : List Choice
  usage : Usage
deriving DecidableEq, Repr

/-- The error body (main.go `ErrorResponse.Error`). -/
structure ErrorBody where
  message : String
  type : String
  code : String
deriving DecidableEq, Repr

/-- Body of an HTTP response emitted by the proxy: nothing (OPTIONS),
an error JSON object, or a success JSON object. -/
inductive ResponseBody where
  | empty : ResponseBody
  | errorBody : ErrorBody → ResponseBody
  | success : OpenAIChatResponse → ResponseBody
deriving DecidableEq, Repr

/-- An HTTP response of the proxy: status code and body. -/
structure HttpResponse where
  status : ℕ
  body : ResponseBody
deriving DecidableEq, Repr

/-- Result of the backend HTTP POST as seen by `sendToOllama`: a transport
failure, or a response with status code and raw body text. -/
inductive HttpResult where
  | transportError : String → HttpResult
  | response : ℕ → String → HttpResult
deriving DecidableEq, Repr

/-- main.go `convertMessagesToPrompt`: concatenate
`role ++ ": " ++ content ++ "\n"` over the messages in order. -/
def convertMessagesToPrompt (messages : List ChatMessage) : String :=
  match messages with
  | [] => ""
  | msg :: rest => msg.role ++ ": " ++ msg.content ++ "\n" ++ convertMessagesToPrompt rest

/-- main.go `sendError`: build the error response written by `sendError`. -/
def sendError (message : String) (errorType : String) (code : String) (status : ℕ) :
    HttpResponse :=
  { status := status,
    body := ResponseBody.errorBody { message := message, type := errorType, code := code } }

/-- Lines 127-138 of main.go: build the backend request from a validated
front request.  `Stream` is copied from the front request; `Temperature`
and `NumPredict` are assigned (hence serialized, by `omitempty`) only when
the front value is strictly positive. -/
def buildOllamaRequest (req : OpenAIChatRequest) : OllamaRequest :=
  { model := req.model,
    prompt := convertMessagesToPrompt req.messages,
    stream := req.stream,
    options :=
      { temperature := if req.temperature > 0 then some req.temperature else none,
        numPredict := if req.maxTokens > 0 then some req.maxTokens else none } }

/-- main.go `sendToOllama`, after the POST: classify the HTTP result.
`decodeResp` is the JSON unmarshalling oracle for the 200 body. -/
def sendToOllama (decodeResp : String → Except String OllamaResponse)
    (result : HttpResult) : Except String OllamaResponse :=
  match result with
  | HttpResult.transportError e => Except.error ("failed to connect to Ollama: " ++ e)
  | HttpResult.response status body =>
      if status ≠ 200 then
        Except.error ("ollama API error (status " ++ toString status ++ "): " ++ body)
      else
        match decodeResp body with
        | Except.error e => Except.error ("failed to parse response: " ++ e)
        | Except.ok r => Except.ok r

/-- Lines 146-166 of main.go: build the success response.  `now` is the
wall-clock timestamp, `rid` the random id suffix. -/
def buildSuccessResponse (req : OpenAIChatRequest) (ollamaResp : OllamaResponse)
    (now : ℤ) (rid : String) : OpenAIChatResponse :=
  { id := "chatcmpl-" ++ rid,
    object := "chat.completion",
    created := now,
    model := (buildOllamaRequest req).model,
    choices :=
      [{ index := 0,
         message := { role := "assistant", content := ollamaResp.response },
         finishReason := "stop" }],
    usage :=
      { promptTokens := (convertMessagesToPrompt req.messages).utf8ByteSize / 4,
        completionTokens := ollamaResp.response.utf8ByteSize / 4,
        totalTokens :=
          ((convertMessagesToPrompt req.messages).utf8ByteSize
            + ollamaResp.response.utf8ByteSize) / 4 } }

/-- main.go `handleChatCompletions`: method check, body decode, validation,
backend call, response build.  `decodedBody` is the result of
`json.NewDecoder(r.Body).Decode`, `backend` the HTTP POST oracle. -/
def handleChatCompletions (method : String)
    (decodedBody : Except String OpenAIChatRequest)
    (backend : OllamaRequest → HttpResult)
    (decodeResp : String → Except String OllamaResponse)
    (now : ℤ) (rid : String) : HttpResponse :=
  if method ≠ "POST" then
    sendError "Method not allowed" "invalid_request_error" "method_not_allowed" 405
  else
    match decodedBody with
    | Except.error _ =>
        sendError "Invalid request body" "invalid_request_error" "invalid_body" 400
    | Except.ok req =>
        if req.messages.length = 0 then
          sendError "Messages array is empty" "invalid_request_error" "invalid_messages" 400
        else if req.model = "" then
          sendError "Model is required" "invalid_request_error" "invalid_model" 400
        else
          match sendToOllama decodeResp (backend (buildOllamaRequest req)) with
          | Except.error e =>
              sendError ("Error calling Ollama API: " ++ e) "server_error" "internal_error" 500
          | Except.ok ollamaResp =>
              { status := 200,
                body := ResponseBody.success (buildSuccessResponse req ollamaResp now rid) }

/-- main.go `corsMiddleware` composed with `handleChatCompletions`: the full
behaviour of the `/v1/chat/completions` route.  OPTIONS is answered with 200
and no body before the handler runs. -/
def serve (method : String)
    (decodedBody : Except String OpenAIChatRequest)
    (backend : OllamaRequest → HttpResult)
    (decodeResp : String → Except String OllamaResponse)
    (now : ℤ) (rid : String) : HttpResponse :=
  if method = "OPTIONS" then
    { status := 200, body := ResponseBody.empty }
  else
    handleChatCompletions method decodedBody backend decodeResp now rid

/-! Concrete data reused by several claim-level theorems. -/

/-- A concrete valid front request: one message with empty role and content,
so the flattened prompt is the three-byte string ": \n". -/
def cexReq : OpenAIChatRequest :=
  { model := "m", messages := [{ role := "", content := "" }],
    temperature := 0, maxTokens := 0, stream := false }

/-- A concrete backend oracle: always HTTP 200 with body "B". -/
def cexBackend : OllamaRequest → HttpResult := fun _ => HttpResult.response 200 "B"

/-- A concrete decode oracle: every body decodes to a response whose
`response` text is the three-byte string "abc". -/
def cexDecode : String → Except String OllamaResponse :=
  fun _ => Except.ok { model := "m", response := "abc", done := true }

/-- The front response produced by `serve` on `cexReq`/`cexBackend`/`cexDecode`
at timestamp 0 with id suffix "x". -/
def cexResp : OpenAIChatResponse :=
  { id := "chatcmpl-x", object := "chat.completion", created := 0, model := "m",
    choices :=
      [{ index := 0, message := { role := "assistant", content := "abc" },
         finishReason := "stop" }],
    usage := { promptTokens := 0, completionTokens := 0, totalTokens := 1 } }

/-- Claim C1 counterexample: on the request `cexReq` (prompt ": \n", 3 bytes)
with backend completion "abc" (3 bytes), the proxy answers 200 with
`prompt_tokens = 0`, `completion_tokens = 0` but `total_tokens = 6 / 4 = 1`,
so `total_tokens ≠ prompt_tokens + completion_tokens`. -/
theorem claim_C1_counterexample :
    serve "POST" (Except.ok cexReq) cexBackend cexDecode 0 "x" =
      { status := 200, body := ResponseBody.success cexResp } ∧
    cexResp.usage.totalTokens ≠
      cexResp.usage.promptTokens + cexResp.usage.completionTokens := by
  decide

/-- Claim C1, amended: for every successful (status 200) response,
`prompt_tokens = len(prompt) / 4` and `completion_tokens = len(completion) / 4`
(integer division on UTF-8 byte lengths), but `total_tokens` is
`(len(prompt) + len(completion)) / 4`, computed on the summed lengths, which
can exceed `prompt_tokens + completion_tokens` by one. -/
theorem claim_C1_amended (method : String) (req : OpenAIChatRequest)
    (backend : OllamaRequest → HttpResult)
    (decodeResp : String → Except String OllamaResponse)
    (now : ℤ) (rid : String) (r : OpenAIChatResponse)
    (h : serve method (Except.ok req) backend decodeResp now rid =
           { status := 200, body := ResponseBody.success r }) :
    r.usage.promptTokens = (convertMessagesToPrompt req.messages).utf8ByteSize / 4 ∧
    ∃ ch, r.choices = [ch] ∧
      r.usage.completionTokens = ch.message.content.utf8ByteSize / 4 ∧
      r.usage.totalTokens =
        ((convertMessagesToPrompt req.messages).utf8ByteSize
          + ch.message.content.utf8ByteSize) / 4 := by
  unfold serve at h
  split at h
  · simp at h
  · unfold handleChatCompletions at h
    split at h
    · simp [sendError] at h
    · dsimp only at h
      split at h
      · simp [sendError] at h
      · split at h
        · simp [sendError] at h
        · split at h
          · simp [sendError] at h
          · simp only [HttpResponse.mk.injEq, ResponseBody.success.injEq, true_and] at h
            subst h
            exact ⟨rfl, _, rfl, rfl, rfl⟩

/-- Witness for `claim_C1_amended` at the concrete run of
`claim_C1_counterexample`. -/
theorem claim_C1_amended_witness :
    (serve "POST" (Except.ok cexReq) cexBackend cexDecode 0 "x" =
       { status := 200, body := ResponseBody.success cexResp }) ∧
    (cexResp.usage.promptTokens =
        (convertMessagesToPrompt cexReq.messages).utf8ByteSize / 4 ∧
     ∃ ch, cexResp.choices = [ch] ∧
       cexResp.usage.completionTokens = ch.message.content.utf8ByteSize / 4 ∧
       cexResp.usage.totalTokens =
         ((convertMessagesToPrompt cexReq.messages).utf8ByteSize
           + ch.message.content.utf8ByteSize) / 4) :=
  ⟨by decide, claim_C1_amended "POST" cexReq cexBackend cexDecode 0 "x" cexResp (by decide)⟩

/-- Claim C2 counterexample: the valid front request `cexReq` with
`stream := true` produces a back-schema request whose `stream` field is
`true` — the flag is forwarded to the backend, not dropped. -/
theorem claim_C2_counterexample :
    ({ cexReq with stream := true } : OpenAIChatRequest).messages ≠ [] ∧
    ({ cexReq with stream := true } : OpenAIChatRequest).model ≠ "" ∧
    ({ cexReq with stream := true } : OpenAIChatRequest).stream = true ∧
    (buildOllamaRequest { cexReq with stream := true }).stream = true := by
  decide

/-- Claim C2, amended: the front request's stream flag is not ignored when
building the backend request — it is copied unchanged into the back-schema
request's `stream` field (the proxy still produces a single complete
`HttpResponse` per request, as `serve` returns one value). -/
theorem claim_C2_amended (req : OpenAIChatRequest) :
    (buildOllamaRequest req).stream = req.stream :=
  rfl

/-- The spec's wording of prompt flattening: concatenation, in order, of
`"<role>: <content>\n"` for every message — one chunk per message. -/
def specFlattenPrompt (messages : List ChatMessage) : String :=
  String.join (messages.map fun m => m.role ++ ": " ++ m.content ++ "\n")

theorem join_cons_eq (s : String) (l : List String) :
    String.join (s :: l) = s ++ String.join l := by
  apply String.ext
  simp [String.join_eq]

/-- Claim C3: for every non-empty message list, the flattened prompt built by
`convertMessagesToPrompt` is exactly the in-order concatenation of
`"<role>: <content>\n"` per message, with no escaping. -/
theorem claim_C3 (messages : List ChatMessage) (_h : messages ≠ []) :
    convertMessagesToPrompt messages = specFlattenPrompt messages := by
  clear _h
  induction messages with
  | nil => rfl
  | cons m rest ih =>
      unfold convertMessagesToPrompt specFlattenPrompt
      rw [List.map_cons, join_cons_eq, ih]
      rfl

/-- Witness for `claim_C3` on a concrete two-message list. -/
theorem claim_C3_witness :
    ([⟨"user", "Hi"⟩, ⟨"assistant", "Yo"⟩] : List ChatMessage) ≠ [] ∧
    convertMessagesToPrompt [⟨"user", "Hi"⟩, ⟨"assistant", "Yo"⟩] =
      specFlattenPrompt [⟨"user", "Hi"⟩, ⟨"assistant", "Yo"⟩] :=
  ⟨by decide, claim_C3 [⟨"user", "Hi"⟩, ⟨"assistant", "Yo"⟩] (by decide)⟩

/-- Claim C4: a POST whose body fails JSON decoding gets 400 with code
`invalid_body`; a decoded body with empty messages gets 400 `invalid_messages`;
non-empty messages with empty model gets 400 `invalid_model`; all of type
`invalid_request_error`.  Each result is stated for every backend oracle and
does not mention it, so no backend call influences these responses. -/
theorem claim_C4 :
    (∀ (e : String) (backend : OllamaRequest → HttpResult)
       (decodeResp : String → Except String OllamaResponse) (now : ℤ) (rid : String),
       serve "POST" (Except.error e) backend decodeResp now rid =
         { status := 400,
           body := ResponseBody.errorBody
             { message := "Invalid request body", type := "invalid_request_error",
               code := "invalid_body" } }) ∧
    (∀ (req : OpenAIChatRequest) (backend : OllamaRequest → HttpResult)
       (decodeResp : String → Except String OllamaResponse) (now : ℤ) (rid : String),
       req.messages = [] →
       serve "POST" (Except.ok req) backend decodeResp now rid =
         { status := 400,
           body := ResponseBody.errorBody
             { message := "Messages array is empty", type := "invalid_request_error",
               code := "invalid_messages" } }) ∧
    (∀ (req : OpenAIChatRequest) (backend : OllamaRequest → HttpResult)
       (decodeResp : String → Except String OllamaResponse) (now : ℤ) (rid : String),
       req.messages ≠ [] → req.model = "" →
       serve "POST" (Except.ok req) backend decodeResp now rid =
         { status := 400,
           body := ResponseBody.errorBody
             { message := "Model is required", type := "invalid_request_error",
               code := "invalid_model" } }) := by
  refine ⟨fun e backend decodeResp now rid => rfl, ?_, ?_⟩
  · intro req backend decodeResp now rid hmsg
    simp [serve, handleChatCompletions, sendError, hmsg]
  · intro req backend decodeResp now rid hmsg hmod
    simp [serve, handleChatCompletions, sendError, hmsg, hmod]

/-- Witness for `claim_C4`: all three rejections at concrete inputs (malformed
body; `cexReq` with messages emptied; `cexReq` with model emptied). -/
theorem claim_C4_witness :
    (serve "POST" (Except.error "bad json") cexBackend cexDecode 0 "x" =
       { status := 400,
         body := ResponseBody.errorBody
           { message := "Invalid request body", type := "invalid_request_error",
             code := "invalid_body" } }) ∧
    (({ cexReq with messages := [] } : OpenAIChatRequest).messages = [] ∧
     serve "POST" (Except.ok { cexReq with messages := [] }) cexBackend cexDecode 0 "x" =
       { status := 400,
         body := ResponseBody.errorBody
           { message := "Messages array is empty", type := "invalid_request_error",
             code := "invalid_messages" } }) ∧
    (({ cexReq with model := "" } : OpenAIChatRequest).messages ≠ [] ∧
     ({ cexReq with model := "" } : OpenAIChatRequest).model = "" ∧
     serve "POST" (Except.ok { cexReq with model := "" }) cexBackend cexDecode 0 "x" =
       { status := 400,
         body := ResponseBody.errorBody
           { message := "Model is required", type := "invalid_request_error",
             code := "invalid_model" } }) :=
  ⟨claim_C4.1 "bad json" cexBackend cexDecode 0 "x",
   ⟨by decide, claim_C4.2.1 { cexReq with messages := [] } cexBackend cexDecode 0 "x" rfl⟩,
   ⟨by decide, by decide,
    claim_C4.2.2 { cexReq with model := "" } cexBackend cexDecode 0 "x" (by decide) rfl⟩⟩

/-- Claim C5: in the backend request built from a front request, the
temperature option is set (to the same value) iff the front temperature is
strictly positive, and `num_predict` is set (to the same value) iff the front
max-token count is strictly positive; zero, negative (and absent, which Go
decodes to zero) are all unset. -/
theorem claim_C5 (req : OpenAIChatRequest) :
    (∀ t : ℚ, (buildOllamaRequest req).options.temperature = some t ↔
       0 < req.temperature ∧ t = req.temperature) ∧
    ((buildOllamaRequest req).options.temperature = none ↔ req.temperature ≤ 0) ∧
    (∀ n : ℤ, (buildOllamaRequest req).options.numPredict = some n ↔
       0 < req.maxTokens ∧ n = req.maxTokens) ∧
    ((buildOllamaRequest req).options.numPredict = none ↔ req.maxTokens ≤ 0) := by
  unfold buildOllamaRequest
  refine ⟨fun t => ?_, ?_, fun n => ?_, ?_⟩ <;> dsimp only <;> split <;>
    simp_all [not_lt, not_le, eq_comm]

/-- Associativity of string append, used to normalise error-message text. -/
theorem string_append_assoc (a b c : String) : a ++ (b ++ c) = a ++ b ++ c := by
  apply String.ext
  simp

/-- Claim C6: for a valid request, a backend transport failure or a non-200
backend status yields 500 with type `server_error`, code `internal_error`,
and in the non-200 case the message text embeds the backend's status code and
raw body (the stated equalities exhibit both as substrings). -/
theorem claim_C6 (req : OpenAIChatRequest) (backend : OllamaRequest → HttpResult)
    (decodeResp : String → Except String OllamaResponse) (now : ℤ) (rid : String)
    (hmsg : req.messages ≠ []) (hmod : req.model ≠ "") :
    (∀ e, backend (buildOllamaRequest req) = HttpResult.transportError e →
       serve "POST" (Except.ok req) backend decodeResp now rid =
         { status := 500,
           body := ResponseBody.errorBody
             { message := "Error calling Ollama API: failed to connect to Ollama: " ++ e,
               type := "server_error", code := "internal_error" } }) ∧
    (∀ st bodyText, backend (buildOllamaRequest req) = HttpResult.response st bodyText →
       st ≠ 200 →
       serve "POST" (Except.ok req) backend decodeResp now rid =
         { status := 500,
           body := ResponseBody.errorBody
             { message := "Error calling Ollama API: ollama API error (status "
                 ++ toString st ++ "): " ++ bodyText,
               type := "server_error", code := "internal_error" } }) := by
  constructor
  · intro e hb
    simp [serve, handleChatCompletions, sendToOllama, sendError, hmsg, hmod, hb,
      List.length_eq_zero, string_append_assoc]
  · intro st bodyText hb hst
    simp [serve, handleChatCompletions, sendToOllama, sendError, hmsg, hmod, hb, hst,
      List.length_eq_zero, string_append_assoc]

/-- A backend oracle that always fails at the transport level. -/
def cexBackendDown : OllamaRequest → HttpResult :=
  fun _ => HttpResult.transportError "connection refused"

/-- A backend oracle that always answers HTTP 503 with body "oops". -/
def cexBackend503 : OllamaRequest → HttpResult :=
  fun _ => HttpResult.response 503 "oops"

/-- Witness for `claim_C6`: both failure modes at concrete inputs. -/
theorem claim_C6_witness :
    (cexReq.messages ≠ [] ∧ cexReq.model ≠ "" ∧
     cexBackendDown (buildOllamaRequest cexReq) =
       HttpResult.transportError "connection refused" ∧
     serve "POST" (Except.ok cexReq) cexBackendDown cexDecode 0 "x" =
       { status := 500,
         body := ResponseBody.errorBody
           { message :=
               "Error calling Ollama API: failed to connect to Ollama: connection refused",
             type := "server_error", code := "internal_error" } }) ∧
    (cexBackend503 (buildOllamaRequest cexReq) = HttpResult.response 503 "oops" ∧
     (503 : ℕ) ≠ 200 ∧
     serve "POST" (Except.ok cexReq) cexBackend503 cexDecode 0 "x" =
       { status := 500,
         body := ResponseBody.errorBody
           { message :=
               "Error calling Ollama API: ollama API error (status 503): oops",
             type := "server_error", code := "internal_error" } }) :=
  ⟨⟨by decide, by decide, rfl,
    (claim_C6 cexReq cexBackendDown cexDecode 0 "x" (by decide) (by decide)).1
      "connection refused" rfl⟩,
   ⟨rfl, by decide,
    (claim_C6 cexReq cexBackend503 cexDecode 0 "x" (by decide) (by decide)).2
      503 "oops" rfl (by decide)⟩⟩

/-- Claim C7: when the backend call of a valid request succeeds, the front
response is 200 with exactly one choice of index 0, role "assistant", content
equal to the backend's `response` field, finish reason "stop", object
"chat.completion", and the front request's model echoed back. -/
theorem claim_C7 (req : OpenAIChatRequest) (backend : OllamaRequest → HttpResult)
    (decodeResp : String → Except String OllamaResponse) (now : ℤ) (rid : String)
    (oresp : OllamaResponse)
    (hmsg : req.messages ≠ []) (hmod : req.model ≠ "")
    (hok : sendToOllama decodeResp (backend (buildOllamaRequest req)) = Except.ok oresp) :
    serve "POST" (Except.ok req) backend decodeResp now rid =
      { status := 200,
        body := ResponseBody.success (buildSuccessResponse req oresp now rid) } ∧
    (buildSuccessResponse req oresp now rid).choices =
      [{ index := 0,
         message := { role := "assistant", content := oresp.response },
         finishReason := "stop" }] ∧
    (buildSuccessResponse req oresp now rid).object = "chat.completion" ∧
    (buildSuccessResponse req oresp now rid).model = req.model := by
  refine ⟨?_, rfl, rfl, rfl⟩
  simp [serve, handleChatCompletions, hmsg, hmod, hok, List.length_eq_zero]

/-- Witness for `claim_C7` on the concrete run with backend completion "abc". -/
theorem claim_C7_witness :
    (cexReq.messages ≠ [] ∧ cexReq.model ≠ "" ∧
     sendToOllama cexDecode (cexBackend (buildOllamaRequest cexReq)) =
       Except.ok { model := "m", response := "abc", done := true }) ∧
    (serve "POST" (Except.ok cexReq) cexBackend cexDecode 0 "x" =
       { status := 200,
         body := ResponseBody.success
           (buildSuccessResponse cexReq { model := "m", response := "abc", done := true } 0 "x") } ∧
     (buildSuccessResponse cexReq { model := "m", response := "abc", done := true } 0 "x").choices =
       [{ index := 0,
          message := { role := "assistant", content := "abc" },
          finishReason := "stop" }] ∧
     (buildSuccessResponse cexReq { model := "m", response := "abc", done := true } 0 "x").object =
       "chat.completion" ∧
     (buildSuccessResponse cexReq { model := "m", response := "abc", done := true } 0 "x").model =
       cexReq.model) :=
  ⟨⟨by decide, by decide, rfl⟩,
   claim_C7 cexReq cexBackend cexDecode 0 "x" { model := "m", response := "abc", done := true }
     (by decide) (by decide) rfl⟩

/-- Claim C8: a method other than POST and OPTIONS is answered 405 with type
`invalid_request_error` and code `method_not_allowed`; OPTIONS is answered
200 with an empty body by the CORS middleware. -/
theorem claim_C8 (method : String) (decodedBody : Except String OpenAIChatRequest)
    (backend : OllamaRequest → HttpResult)
    (decodeResp : String → Except String OllamaResponse) (now : ℤ) (rid : String) :
    (method ≠ "POST" → method ≠ "OPTIONS" →
       serve method decodedBody backend decodeResp now rid =
         { status := 405,
           body := ResponseBody.errorBody
             { message := "Method not allowed", type := "invalid_request_error",
               code := "method_not_allowed" } }) ∧
    (method = "OPTIONS" →
       serve method decodedBody backend decodeResp now rid =
         { status := 200, body := ResponseBody.empty }) := by
  constructor
  · intro h1 h2
    simp [serve, handleChatCompletions, sendError, h1, h2]
  · intro h
    simp [serve, h]

/-- Witness for `claim_C8` at methods "GET" and "OPTIONS". -/
theorem claim_C8_witness :
    (("GET" : String) ≠ "POST" ∧ ("GET" : String) ≠ "OPTIONS" ∧
     serve "GET" (Except.ok cexReq) cexBackend cexDecode 0 "x" =
       { status := 405,
         body := ResponseBody.errorBody
           { message := "Method not allowed", type := "invalid_request_error",
             code := "method_not_allowed" } }) ∧
    (("OPTIONS" : String) = "OPTIONS" ∧
     serve "OPTIONS" (Except.ok cexReq) cexBackend cexDecode 0 "x" =
       { status := 200, body := ResponseBody.empty }) :=
  ⟨⟨by decide, by decide,
    (claim_C8 "GET" (Except.ok cexReq) cexBackend cexDecode 0 "x").1
      (by decide) (by decide)⟩,
   ⟨rfl, (claim_C8 "OPTIONS" (Except.ok cexReq) cexBackend cexDecode 0 "x").2 rfl⟩⟩

/-- Claim C9: when both validation conditions fail at once (messages empty
and model empty), the answer is the `invalid_messages` error — the messages
check runs before the model check. -/
theorem claim_C9 (req : OpenAIChatRequest) (backend : OllamaRequest → HttpResult)
    (decodeResp : String → Except String OllamaResponse) (now : ℤ) (rid : String)
    (hmsg : req.messages = []) (_hmod : req.model = "") :
    serve "POST" (Except.ok req) backend decodeResp now rid =
      { status := 400,
        body := ResponseBody.errorBody
          { message := "Messages array is empty", type := "invalid_request_error",
            code := "invalid_messages" } } := by
  simp [serve, handleChatCompletions, sendError, hmsg]

/-- Witness for `claim_C9` at a concrete request with empty messages and
empty model. -/
theorem claim_C9_witness :
    (({ cexReq with messages := [], model := "" } : OpenAIChatRequest).messages = [] ∧
     ({ cexReq with messages := [], model := "" } : OpenAIChatRequest).model = "") ∧
    serve "POST" (Except.ok { cexReq with messages := [], model := "" })
        cexBackend cexDecode 0 "x" =
      { status := 400,
        body := ResponseBody.errorBody
          { message := "Messages array is empty", type := "invalid_request_error",
            code := "invalid_messages" } } :=
  ⟨⟨rfl, rfl⟩,
   claim_C9 { cexReq with messages := [], model := "" } cexBackend cexDecode 0 "x" rfl rfl⟩

/-- Two backend decode results that agree except possibly in the `model` and
`done` fields: both errors with the same message, or both successes with the
same `response` text. -/
def agreeUpToModelDone :
    Except String OllamaResponse → Except String OllamaResponse → Prop
  | Except.ok a, Except.ok b => a.response = b.response
  | Except.error e1, Except.error e2 => e1 = e2
  | _, _ => False

/-- `sendToOllama` maps decode oracles that agree up to `model`/`done` to
results that agree up to `model`/`done`. -/
theorem sendToOllama_agree (d1 d2 : String → Except String OllamaResponse)
    (h : ∀ s, agreeUpToModelDone (d1 s) (d2 s)) (r : HttpResult) :
    agreeUpToModelDone (sendToOllama d1 r) (sendToOllama d2 r) := by
  cases r with
  | transportError e => simp [sendToOllama, agreeUpToModelDone]
  | response st bodyText =>
      by_cases hst : st = 200
      · subst hst
        have hb := h bodyText
        simp only [sendToOllama, ne_eq, not_true_eq_false, if_false, ite_false]
        cases hd1 : d1 bodyText <;> cases hd2 : d2 bodyText <;>
          rw [hd1, hd2] at hb <;> simp_all [agreeUpToModelDone]
      · simp [sendToOllama, hst, agreeUpToModelDone]

/-- The success response depends on the backend response only through its
`response` field. -/
theorem buildSuccessResponse_agree (req : OpenAIChatRequest) (a b : OllamaResponse)
    (h : a.response = b.response) (now : ℤ) (rid : String) :
    buildSuccessResponse req a now rid = buildSuccessResponse req b now rid := by
  simp [buildSuccessResponse, h]

/-- Claim C10: the route's output never depends on the backend response's
`model` and `done` fields — two decode oracles that agree up to those fields
give identical front responses for the same request, timestamp and id; in
particular `done = false` is still treated as a complete success. -/
theorem claim_C10 (method : String) (decodedBody : Except String OpenAIChatRequest)
    (backend : OllamaRequest → HttpResult)
    (d1 d2 : String → Except String OllamaResponse) (now : ℤ) (rid : String)
    (h : ∀ s, agreeUpToModelDone (d1 s) (d2 s)) :
    serve method decodedBody backend d1 now rid =
      serve method decodedBody backend d2 now rid := by
  unfold serve
  split
  · rfl
  · unfold handleChatCompletions
    split
    · rfl
    · cases decodedBody with
      | error e => rfl
      | ok req =>
          dsimp only
          split
          · rfl
          · split
            · rfl
            · have hag := sendToOllama_agree d1 d2 h (backend (buildOllamaRequest req))
              cases h1 : sendToOllama d1 (backend (buildOllamaRequest req)) with
              | error e1 =>
                  cases h2 : sendToOllama d2 (backend (buildOllamaRequest req)) with
                  | error e2 =>
                      rw [h1, h2] at hag
                      simp only [agreeUpToModelDone] at hag
                      rw [hag]
                  | ok b =>
                      rw [h1, h2] at hag
                      simp [agreeUpToModelDone] at hag
              | ok a =>
                  cases h2 : sendToOllama d2 (backend (buildOllamaRequest req)) with
                  | error e2 =>
                      rw [h1, h2] at hag
                      simp [agreeUpToModelDone] at hag
                  | ok b =>
                      rw [h1, h2] at hag
                      simp only [agreeUpToModelDone] at hag
                      dsimp only
                      rw [buildSuccessResponse_agree req a b hag now rid]

/-- A decode oracle identical to `cexDecode` except that the decoded backend
response carries a different `model` and `done = false`. -/
def cexDecodeB : String → Except String OllamaResponse :=
  fun _ => Except.ok { model := "other", response := "abc", done := false }

/-- Witness for `claim_C10`: `cexDecode` and `cexDecodeB` differ only in the
backend `model`/`done` fields, the two front responses coincide, and the
`done = false` run is still a 200 success. -/
theorem claim_C10_witness :
    (∀ s, agreeUpToModelDone (cexDecode s) (cexDecodeB s)) ∧
    serve "POST" (Except.ok cexReq) cexBackend cexDecode 0 "x" =
      serve "POST" (Except.ok cexReq) cexBackend cexDecodeB 0 "x" ∧
    serve "POST" (Except.ok cexReq) cexBackend cexDecodeB 0 "x" =
      { status := 200, body := ResponseBody.success cexResp } :=
  ⟨fun _ => rfl,
   claim_C10 "POST" (Except.ok cexReq) cexBackend cexDecode cexDecodeB 0 "x" (fun _ => rfl),
   by decide⟩
